import Mathlib

/-!
Verification development for the ASL parameters validator
(`json_validation.py`, `utils.py`, `info_extraction_from_json.py`).

The repository consumes JSON records (Python dicts produced by `json.load`)
and validates them.  We shallowly embed the JSON value space, the record
operations the code uses (`data.get`, `field in data`, `==`, truthiness),
the free validation functions of `utils.py` and
`info_extraction_from_json.py`, and the schema-driven engine of
`json_validation.py` (`JSONValidator.validate` / `apply_schema` /
`should_apply_validation`).

Python numbers are modelled as rationals; Python `None` (both the JSON
`null` value and the result of `dict.get` on an absent key) is `JVal.jnull`.
Code that would raise a `TypeError` at run time (ordering comparisons on
non-numeric values) is modelled with `Option`, `none` standing for the
raised exception.
-/

/-- A JSON value as produced by `json.load`: null, booleans, numbers
(modelled as rationals), strings, and arrays.  Nested objects never reach
the validation code paths under study, so they are not modelled. -/
inductive JVal where
  | jnull : JVal
  | jbool : Bool → JVal
  | jnum : ℚ → JVal
  | jstr : String → JVal
  | jarr : List JVal → JVal

mutual

/-- Python `==` on JSON-derived values.  Python's `bool` is a subclass of
`int`, so `True == 1` and `False == 0`; numbers compare numerically;
`None`, strings and lists compare structurally.  Values of different
(non-numeric) types are unequal. -/
def pyEq : JVal → JVal → Bool
  | .jnull, .jnull => true
  | .jbool a, .jbool b => a == b
  | .jbool a, .jnum q => (if a then (1 : ℚ) else 0) == q
  | .jnum q, .jbool a => q == (if a then (1 : ℚ) else 0)
  | .jnum a, .jnum b => a == b
  | .jstr a, .jstr b => a == b
  | .jarr a, .jarr b => pyEqList a b
  | _, _ => false

/-- Element-wise Python `==` of two lists (list equality test). -/
def pyEqList : List JVal → List JVal → Bool
  | [], [] => true
  | x :: xs, y :: ys => pyEq x y && pyEqList xs ys
  | _, _ => false

end

/-- Python `v in xs` membership for a list, element-wise `==`. -/
def pyMem (v : JVal) (xs : List JVal) : Bool :=
  xs.any (pyEq v)

/-- Python truthiness of a JSON-derived value (`if v:`): `None`, `False`,
`0`, `""` and `[]` are falsy, everything else truthy. -/
def truthy : JVal → Bool
  | .jnull => false
  | .jbool b => b
  | .jnum q => q != 0
  | .jstr s => s != ""
  | .jarr xs => !xs.isEmpty

/-- Python numeric coercion for ordering comparisons: numbers are
themselves, booleans are 1/0, anything else raises `TypeError` (`none`). -/
def asNum : JVal → Option ℚ
  | .jnum q => some q
  | .jbool b => some (if b then 1 else 0)
  | _ => none

/-- A parsed JSON object (Python dict): association list keyed by field
name.  Keys are unique in a dict; lookup finds the first binding. -/
abbrev Record := List (String × JVal)

/-- Dictionary lookup on a string-keyed association list. -/
def lookupKV {α : Type} : List (String × α) → String → Option α
  | [], _ => none
  | (k', v) :: rest, k => if k = k' then some v else lookupKV rest k

/-- The key list of an association list (a dict's keys). -/
def keysOf {α : Type} (l : List (String × α)) : List String :=
  l.map Prod.fst

/-- Python `field in data` (dict key membership). -/
def hasKey (data : Record) (k : String) : Bool :=
  (lookupKV data k).isSome

/-- Python `data.get(field)`: the stored value, or `None` when the key is
absent.  A stored JSON `null` and an absent key both yield `jnull`,
exactly as both yield `None` in Python. -/
def pyGet (data : Record) (k : String) : JVal :=
  (lookupKV data k).getD .jnull

/-- Python `data.get(field, default)`: the stored value, or the default
when the key is absent. -/
def pyGetD (data : Record) (k : String) (d : JVal) : JVal :=
  (lookupKV data k).getD d

/-- Pointwise update of a string-keyed partial map: Python dict assignment
`m[k] = v`, read through lookups. -/
def upd {α : Type} (m : String → Option α) (k : String) (v : α) : String → Option α :=
  fun k' => if k' = k then some v else m k'

/-! ## utils.py: threshold constants and free validation functions -/

def MIN_PAIRS_WARNING_THRESHOLD : ℚ := 0
def MAX_PAIRS_WARNING_THRESHOLD : ℚ := 10
def MIN_PAIRS_ERROR_THRESHOLD : ℚ := -1
def MAX_PAIRS_ERROR_THRESHOLD : ℚ := 100
def VOXEL_SIZE_MIN_WARNING_THRESHOLD : ℚ := 1
def VOXEL_SIZE_MAX_WARNING_THRESHOLD : ℚ := 10
def VOXEL_SIZE_MIN_ERROR_THRESHOLD : ℚ := 0
def VOXEL_SIZE_MAX_ERROR_THRESHOLD : ℚ := 100

def VALID_ASL_TYPES : List JVal :=
  [.jstr "PASL", .jstr "PCASL", .jstr "(P)CASL", .jstr "Velocity-selective"]

def MIN_LABELING_DURATION_WARNING : ℚ := 1
def MAX_LABELING_DURATION_WARNING : ℚ := 10
def MIN_LABELING_DURATION_ERROR : ℚ := 0
def MAX_LABELING_DURATION_ERROR : ℚ := 100
def MIN_POST_LABELING_DELAY_WARNING : ℚ := 1
def MAX_POST_LABELING_DELAY_WARNING : ℚ := 10
def MIN_POST_LABELING_DELAY_ERROR : ℚ := 0
def MAX_POST_LABELING_DELAY_ERROR : ℚ := 100
def MIN_INVERSION_TIME_ERROR_THRESHOLD : ℚ := 0

/-- `utils.validate_asl_type`.  The Python error message interpolates the
offending value and the allowed list; the interpolated rendering is elided
here (no claim inspects it), the fixed prefix is kept. -/
def validate_asl_type (asl_type : JVal) : List String × List String × JVal :=
  if pyMem asl_type VALID_ASL_TYPES then ([], [], asl_type)
  else (["Invalid 'ArterialSpinLabelingType'"], [], asl_type)

/-- `utils.validate_background_suppression`: `bs not in [True, False]`
errors (Python membership, so the numbers 1 and 0 also pass); the
normalized value is "Yes"/"No" by truthiness. -/
def validate_background_suppression (bs : JVal) : List String × List String × JVal :=
  (if pyMem bs [.jbool true, .jbool false] then ([] : List String)
   else ["Missing or invalid 'BackgroundSuppression' (should be True or False)"],
   [],
   .jstr (if truthy bs then "Yes" else "No"))

/-- `utils.validate_m0b_method`: `if not m0b_method` errors (falsy value);
the raw value is returned. -/
def validate_m0b_method (m0b_method : JVal) : List String × List String × JVal :=
  (if truthy m0b_method then ([] : List String)
   else ["Missing or invalid 'Method for M0b estimation'"],
   [], m0b_method)

/-- `utils.validate_total_pairs`: error strictly outside [-1, 100], else
warning when the value is 0 or above 10; the value is returned unchanged. -/
def validate_total_pairs (total_pairs : ℚ) : List String × List String × ℚ :=
  if total_pairs < MIN_PAIRS_ERROR_THRESHOLD ∨ total_pairs > MAX_PAIRS_ERROR_THRESHOLD then
    (["'TotalAcquiredPairs' out of valid range (-1-100)"], [], total_pairs)
  else if total_pairs = 0 ∨ total_pairs > MAX_PAIRS_WARNING_THRESHOLD then
    ([], ["'TotalAcquiredPairs' is 0 or greater than 10, which may be unusual"], total_pairs)
  else ([], [], total_pairs)

/-- One iteration of the element loop of `utils.validate_voxel_size`:
error strictly outside [0, 100], else warning strictly outside [1, 10]. -/
def checkVoxelElem (size : ℚ) : List String × List String :=
  if size < VOXEL_SIZE_MIN_ERROR_THRESHOLD ∨ size > VOXEL_SIZE_MAX_ERROR_THRESHOLD then
    (["'AcquisitionVoxelSize' out of valid range (0-100)"], [])
  else if size < VOXEL_SIZE_MIN_WARNING_THRESHOLD ∨ size > VOXEL_SIZE_MAX_WARNING_THRESHOLD then
    ([], ["'AcquisitionVoxelSize' is in a warning range (0-1 or 10-100)"])
  else ([], [])

/-- The element loop of `utils.validate_voxel_size`, accumulating the
per-element errors and warnings in element order. -/
def voxelChecks : List ℚ → List String × List String
  | [] => ([], [])
  | s :: rest =>
    let c := checkVoxelElem s
    let r := voxelChecks rest
    (c.1 ++ r.1, c.2 ++ r.2)

/-- `utils.validate_voxel_size`: a non-list or a list whose length is not 3
gets the shape error; otherwise each element is range-checked.  A
non-numeric element would raise `TypeError` in Python (`none`). -/
def validate_voxel_size (voxel_size : JVal) : Option (List String × List String × JVal) :=
  match voxel_size with
  | .jarr xs =>
    if xs.length ≠ 3 then
      some (["Invalid 'AcquisitionVoxelSize' (should be a list of 3 numbers)"], [], voxel_size)
    else
      (xs.mapM asNum).map (fun qs =>
        let r := voxelChecks qs
        (r.1, r.2, voxel_size))
  | v => some (["Invalid 'AcquisitionVoxelSize' (should be a list of 3 numbers)"], [], v)

/-- `utils.validate_labeling_duration`: error strictly outside [0, 100],
else warning strictly outside [1, 10]; value unchanged. -/
def validate_labeling_duration (labeling_duration : ℚ) : List String × List String × ℚ :=
  if labeling_duration < MIN_LABELING_DURATION_ERROR ∨
      labeling_duration > MAX_LABELING_DURATION_ERROR then
    (["'LabelingDuration' out of valid range (0-100)"], [], labeling_duration)
  else if labeling_duration < MIN_LABELING_DURATION_WARNING ∨
      labeling_duration > MAX_LABELING_DURATION_WARNING then
    ([], ["'LabelingDuration' is less than 1 or greater than 10, which may be unusual"],
     labeling_duration)
  else ([], [], labeling_duration)

/-- `utils.validate_post_labeling_delay`: same shape as labeling duration. -/
def validate_post_labeling_delay (post_labeling_delay : ℚ) : List String × List String × ℚ :=
  if post_labeling_delay < MIN_POST_LABELING_DELAY_ERROR ∨
      post_labeling_delay > MAX_POST_LABELING_DELAY_ERROR then
    (["'PostLabelingDelay' out of valid range (0-100)"], [], post_labeling_delay)
  else if post_labeling_delay < MIN_POST_LABELING_DELAY_WARNING ∨
      post_labeling_delay > MAX_POST_LABELING_DELAY_WARNING then
    ([], ["'PostLabelingDelay' is less than 1 or greater than 10, which may be unusual"],
     post_labeling_delay)
  else ([], [], post_labeling_delay)

/-- `utils.validate_inversion_time`: error when not strictly positive; the
warning band in the source is a commented-out placeholder, so warnings are
always empty. -/
def validate_inversion_time (inversion_time : ℚ) : List String × List String × ℚ :=
  if inversion_time ≤ MIN_INVERSION_TIME_ERROR_THRESHOLD then
    (["'InversionTime' not greater than 0"], [], inversion_time)
  else ([], [], inversion_time)

/-- `utils.validate_recommended_parameters`: fills a values map (real
values or the sentinels "Not provided" / "Not applicable") and returns
empty error and warning lists. -/
def validate_recommended_parameters (data : Record) :
    List String × List String × (String → Option JVal) :=
  let values0 : String → Option JVal := fun _ => none
  let v1 :=
    if truthy (pyGet data "BackgroundSuppression") then
      upd (upd (upd values0
        "NumberOfBackgroundSuppressionPulses"
          (pyGetD data "BackgroundSuppressionNumberPulses" (.jstr "Not provided")))
        "BackgroundSuppressionPulseTiming"
          (pyGetD data "BackgroundSuppressionPulseTime" (.jstr "Not provided")))
        "BackgroundSuppressionTimingDefinition"
          (pyGetD data "BackgroundSuppressionTimingDefinition" (.jstr "Not provided"))
    else
      upd (upd (upd values0
        "NumberOfBackgroundSuppressionPulses" (.jstr "Not applicable"))
        "BackgroundSuppressionPulseTiming" (.jstr "Not applicable"))
        "BackgroundSuppressionTimingDefinition" (.jstr "Not applicable")
  let v2 :=
    upd (upd v1
      "LabelingLocationDescription" (pyGetD data "LabelingLocationDescription" (.jstr "Not provided")))
      "ShimVolume" (pyGetD data "ShimVolume" (.jstr "Not provided"))
  let v3 :=
    if truthy (pyGet data "VascularCrushing") then
      upd (upd v2 "Venc" (pyGetD data "Venc" (.jstr "Not provided")))
        "b" (pyGetD data "b" (.jstr "Not provided"))
    else
      upd (upd v2 "Venc" (.jstr "Not applicable")) "b" (.jstr "Not applicable")
  ([], [], v3)

/-! ## info_extraction_from_json.py: domain rule functions -/

/-- `info_extraction_from_json.verify_general_parameters`: runs the five
general validators, concatenating their error and warning lists in order
and keying their normalized values.  `TotalAcquiredPairs` defaults to `-1`
when absent; a non-numeric `TotalAcquiredPairs` or voxel element raises
`TypeError` in Python (`none`). -/
def verify_general_parameters (data : Record) :
    Option (List String × List String × (String → Option JVal)) := do
  let r1 := validate_asl_type (pyGetD data "ArterialSpinLabelingType" (.jstr ""))
  let r2 := validate_background_suppression (pyGet data "BackgroundSuppression")
  let r3 := validate_m0b_method (pyGetD data "M0Type" (.jstr ""))
  let tp := pyGetD data "TotalAcquiredPairs" (.jnum (-1))
  let q ← asNum tp
  let r4 := validate_total_pairs q
  let vs := pyGetD data "AcquisitionVoxelSize" (.jarr [])
  let r5 ← validate_voxel_size vs
  some (r1.1 ++ r2.1 ++ r3.1 ++ r4.1 ++ r5.1,
        r1.2.1 ++ r2.2.1 ++ r3.2.1 ++ r4.2.1 ++ r5.2.1,
        upd (upd (upd (upd (upd (fun _ => none)
          "ArterialSpinLabelingType" r1.2.2)
          "BackgroundSuppression" r2.2.2)
          "MethodForM0bEstimation" r3.2.2)
          "TotalAcquiredPairs" tp)
          "AcquisitionVoxelSize" r5.2.2)

/-- The guard of `verify_PCASL_required_parameters`: it checks two
different field names against two different sentinels,
`data.get("ArterialSpinLabelingType") == "PCASL"` or
`data.get("ArterialSpinType") == "(P)CASL"`, exactly as in the source. -/
def pcasl_guard (data : Record) : Bool :=
  pyEq (pyGet data "ArterialSpinLabelingType") (.jstr "PCASL") ||
  pyEq (pyGet data "ArterialSpinType") (.jstr "(P)CASL")

/-- One `data.get(field, None)` block inside
`verify_PCASL_required_parameters`: a `None` value (absent key or stored
null) yields the missing-parameter error and writes no value; any other
value is range-validated by `vfun` (raising `TypeError`, i.e. `none`, when
non-numeric) and its raw value recorded. -/
def pcaslCheckField (fieldVal : JVal) (missingMsg : String)
    (vfun : ℚ → List String × List String × ℚ) :
    Option (List String × List String × Option JVal) :=
  match fieldVal with
  | .jnull => some ([missingMsg], [], none)
  | v => (asNum v).map (fun q => ((vfun q).1, (vfun q).2.1, some v))

/-- `info_extraction_from_json.verify_PCASL_required_parameters`.  Inside
the guard, each of LabelingDuration and PostLabelingDelay is `None`-checked
and otherwise range-validated, errors/warnings concatenating in order and
present raw values keyed into the values dict.  Outside the guard both
values are the "Not applicable" sentinel and nothing is validated. -/
def verify_PCASL_required_parameters (data : Record) :
    Option (List String × List String × (String → Option JVal)) :=
  let values0 : String → Option JVal := fun _ => none
  if pcasl_guard data then do
    let s1 ← pcaslCheckField (pyGet data "LabelingDuration")
      "Required labeling duration parameter for pcasl not provided" validate_labeling_duration
    let s2 ← pcaslCheckField (pyGet data "PostLabelingDelay")
      "Required post labeling delay parameter for pcasl not provided" validate_post_labeling_delay
    let v1 := match s1.2.2 with
      | some v => upd values0 "LabelingDuration" v
      | none => values0
    let v2 := match s2.2.2 with
      | some v => upd v1 "PostLabelingDelay" v
      | none => v1
    some (s1.1 ++ s2.1, s1.2.1 ++ s2.2.1, v2)
  else
    some ([], [],
      upd (upd values0 "LabelingDuration" (.jstr "Not applicable"))
        "PostLabelingDelay" (.jstr "Not applicable"))

/-! ## json_validation.py: the schema-driven engine -/

/-- A per-field condition as stored in a condition schema: the literal
string "all", a mapping (`dict`) of controlling field to expected value,
or any other value (which the evaluator does not recognize). -/
inductive Condition where
  | all : Condition
  | cdict : List (String × JVal) → Condition
  | other : Condition

/-- One entry of a dict condition inside
`JSONValidator.should_apply_validation`: a list expected value is a
membership test on `data.get(key)`, anything else an equality test. -/
def condEntryPass (data : Record) (kv : String × JVal) : Bool :=
  match kv.2 with
  | .jarr xs => pyMem (pyGet data kv.1) xs
  | v => pyEq (pyGet data kv.1) v

/-- `JSONValidator.should_apply_validation`: "all" and unrecognized
conditions hold; a dict condition holds when every entry passes. -/
def should_apply_validation (data : Record) : Condition → Bool
  | .all => true
  | .cdict entries => entries.all (condEntryPass data)
  | .other => true

/-- A field validator of the engine, abstractly: `validator.validate(raw)`
returns an error and a warning, `none` standing for a falsy result
(`None` or an empty string).  The `validator.py` module defining the
concrete validator classes is not part of the sources under study; the
engine treats validators opaquely through this interface, and every
engine-level claim here is proved for all validators. -/
abbrev Validator := JVal → Option String × Option String

/-- A validator schema: field name to validator, in insertion order. -/
abbrev VSchema := List (String × Validator)

/-- A condition schema: field name to condition. -/
abbrev CondMap := List (String × Condition)

/-- The three outputs of the engine, read through lookups: errors,
warnings and values dicts keyed by field name. -/
structure VOut where
  errors : String → Option String
  warnings : String → Option String
  values : String → Option JVal

/-- The engine's initial state: three empty dicts. -/
def emptyOut : VOut := ⟨fun _ => none, fun _ => none, fun _ => none⟩

/-- `condition_schema.get(field, "all")` in `apply_schema`. -/
def condFor (condition_schema : CondMap) (field : String) : Condition :=
  (lookupKV condition_schema field).getD Condition.all

/-- The body of the `for field, validator in validator_schema.items()`
loop of `JSONValidator.apply_schema`, for one field. -/
def applySchemaStep (condition_schema : CondMap) (data : Record) (is_required : Bool)
    (acc : VOut) (e : String × Validator) : VOut :=
  if should_apply_validation data (condFor condition_schema e.1) then
    if !hasKey data e.1 && is_required then
      { acc with errors := upd acc.errors e.1 "Missing required parameter" }
    else if hasKey data e.1 then
      let ew := e.2 (pyGet data e.1)
      let a1 :=
        match ew.1 with
        | some s => { acc with errors := upd acc.errors e.1 s }
        | none => acc
      let a2 :=
        match ew.2 with
        | some s => { a1 with warnings := upd a1.warnings e.1 s }
        | none => a1
      { a2 with values := upd a2.values e.1 (pyGet data e.1) }
    else if !is_required then
      { acc with values := upd acc.values e.1 (.jstr "Recommended to be specified") }
    else acc
  else acc

/-- `JSONValidator.apply_schema`: fold the loop body over the schema. -/
def apply_schema (validator_schema : VSchema) (condition_schema : CondMap)
    (data : Record) (is_required : Bool) (acc : VOut) : VOut :=
  validator_schema.foldl (applySchemaStep condition_schema data is_required) acc

/-- `JSONValidator.validate`: required schema first, then recommended. -/
def JSONValidator.validate (reqV : VSchema) (reqC : CondMap)
    (recV : VSchema) (recC : CondMap) (data : Record) : VOut :=
  apply_schema recV recC data false (apply_schema reqV reqC data true emptyOut)

/-! ## Per-field analysis of the engine -/

/-- The three engine outputs at one field. -/
def tripleAt (f : String) (o : VOut) : Option String × Option String × Option JVal :=
  (o.errors f, o.warnings f, o.values f)

/-- The effect of one `apply_schema` loop iteration on its own field's
entries, as a function of the previous entries at that field. -/
def stepTriple (condition_schema : CondMap) (data : Record) (is_required : Bool)
    (f : String) (vld : Validator) (prev : Option String × Option String × Option JVal) :
    Option String × Option String × Option JVal :=
  if should_apply_validation data (condFor condition_schema f) then
    if !hasKey data f && is_required then
      (some "Missing required parameter", prev.2.1, prev.2.2)
    else if hasKey data f then
      let ew := vld (pyGet data f)
      ((match ew.1 with | some s => some s | none => prev.1),
       (match ew.2 with | some s => some s | none => prev.2.1),
       some (pyGet data f))
    else if !is_required then
      (prev.1, prev.2.1, some (.jstr "Recommended to be specified"))
    else prev
  else prev

/-- The error list of a fallible per-field validation result, `[]` when
the call raised. -/
def vErrs (o : Option (List String × List String × JVal)) : List String :=
  (o.map Prod.fst).getD []

/-- The warning list of a fallible per-field validation result. -/
def vWarns (o : Option (List String × List String × JVal)) : List String :=
  (o.map (fun r => r.2.1)).getD []

/-- The error list of a fallible domain-rule group result, `[]` when the
call raised. -/
def dErrs (o : Option (List String × List String × (String → Option JVal))) : List String :=
  (o.map Prod.fst).getD []

/-- The warning list of a fallible domain-rule group result. -/
def dWarns (o : Option (List String × List String × (String → Option JVal))) : List String :=
  (o.map (fun r => r.2.1)).getD []

/-- The values-dict entry of a fallible domain-rule group result at one
key, `none` when the call raised or the key is unset. -/
def dValueAt (o : Option (List String × List String × (String → Option JVal)))
    (k : String) : Option JVal :=
  o.bind (fun r => r.2.2 k)

theorem upd_self {α : Type} (m : String → Option α) (k : String) (v : α) :
    upd m k v k = some v := by
  simp [upd]

theorem upd_other {α : Type} (m : String → Option α) {k k' : String} (v : α)
    (h : k' ≠ k) : upd m k v k' = m k' := by
  simp [upd, h]

theorem lookupKV_isSome_iff_mem {α : Type} (l : List (String × α)) (f : String) :
    (lookupKV l f).isSome ↔ f ∈ keysOf l := by
  induction l with
  | nil => simp [lookupKV, keysOf]
  | cons hd tl ih =>
    rcases hd with ⟨k, v⟩
    by_cases h : f = k
    · subst h; simp [lookupKV, keysOf]
    · simp [lookupKV, keysOf, h, ih]

theorem step_at_self (condition_schema : CondMap) (data : Record) (is_required : Bool)
    (acc : VOut) (f : String) (vld : Validator) :
    tripleAt f (applySchemaStep condition_schema data is_required acc (f, vld)) =
      stepTriple condition_schema data is_required f vld (tripleAt f acc) := by
  unfold applySchemaStep stepTriple tripleAt
  split_ifs with h1 h2 h3 h4 <;>
    first
    | rfl
    | (rcases hv : vld (pyGet data f) with ⟨e, w⟩
       cases e <;> cases w <;> simp [upd, hv])

theorem step_at_other (condition_schema : CondMap) (data : Record) (is_required : Bool)
    (acc : VOut) (f : String) (e : String × Validator) (hne : f ≠ e.1) :
    tripleAt f (applySchemaStep condition_schema data is_required acc e) = tripleAt f acc := by
  unfold applySchemaStep tripleAt
  split_ifs with h1 h2 h3 h4 <;>
    first
    | rfl
    | (rcases hv : e.2 (pyGet data e.1) with ⟨er, w⟩
       cases er <;> cases w <;> simp [upd, hv, hne])

theorem apply_schema_at_notmem (condition_schema : CondMap) (data : Record)
    (is_required : Bool) :
    ∀ (entries : VSchema) (acc : VOut) (f : String), f ∉ keysOf entries →
      tripleAt f (apply_schema entries condition_schema data is_required acc) =
        tripleAt f acc := by
  intro entries
  induction entries with
  | nil => intro acc f _; rfl
  | cons hd tl ih =>
    intro acc f hf
    have hne : f ≠ hd.1 := by
      intro h; exact hf (by simp [keysOf, h])
    have htl : f ∉ keysOf tl := by
      intro h; exact hf (by simp [keysOf] at h ⊢; exact Or.inr h)
    calc tripleAt f (apply_schema (hd :: tl) condition_schema data is_required acc)
        = tripleAt f (apply_schema tl condition_schema data is_required
            (applySchemaStep condition_schema data is_required acc hd)) := rfl
      _ = tripleAt f (applySchemaStep condition_schema data is_required acc hd) := ih _ f htl
      _ = tripleAt f acc := step_at_other _ _ _ _ _ _ hne

theorem apply_schema_at_mem (condition_schema : CondMap) (data : Record)
    (is_required : Bool) :
    ∀ (entries : VSchema) (acc : VOut) (f : String) (vld : Validator),
      (keysOf entries).Nodup → lookupKV entries f = some vld →
      tripleAt f (apply_schema entries condition_schema data is_required acc) =
        stepTriple condition_schema data is_required f vld (tripleAt f acc) := by
  intro entries
  induction entries with
  | nil => intro acc f vld _ h; simp [lookupKV] at h
  | cons hd tl ih =>
    intro acc f vld hnd hkv
    rcases hd with ⟨k, w⟩
    have hnd' : (keysOf tl).Nodup ∧ k ∉ keysOf tl := by
      have : (k :: keysOf tl).Nodup := by simpa [keysOf] using hnd
      exact ⟨this.of_cons, (List.nodup_cons.mp this).1⟩
    by_cases h : f = k
    · subst h
      have hw : w = vld := by simpa [lookupKV] using hkv
      subst hw
      calc tripleAt f (apply_schema ((f, w) :: tl) condition_schema data is_required acc)
          = tripleAt f (apply_schema tl condition_schema data is_required
              (applySchemaStep condition_schema data is_required acc (f, w))) := rfl
        _ = tripleAt f (applySchemaStep condition_schema data is_required acc (f, w)) :=
            apply_schema_at_notmem _ _ _ tl _ f hnd'.2
        _ = stepTriple condition_schema data is_required f w (tripleAt f acc) :=
            step_at_self _ _ _ _ _ _
    · have hkv' : lookupKV tl f = some vld := by simpa [lookupKV, h] using hkv
      calc tripleAt f (apply_schema ((k, w) :: tl) condition_schema data is_required acc)
          = tripleAt f (apply_schema tl condition_schema data is_required
              (applySchemaStep condition_schema data is_required acc (k, w))) := rfl
        _ = stepTriple condition_schema data is_required f vld
              (tripleAt f (applySchemaStep condition_schema data is_required acc (k, w))) :=
            ih _ f vld hnd'.1 hkv'
        _ = stepTriple condition_schema data is_required f vld (tripleAt f acc) := by
            rw [step_at_other _ _ _ _ _ _ h]

theorem validate_at_required (reqV : VSchema) (reqC : CondMap) (recV : VSchema)
    (recC : CondMap) (data : Record) (f : String) (vld : Validator)
    (hnd : (keysOf reqV ++ keysOf recV).Nodup) (hkv : lookupKV reqV f = some vld) :
    tripleAt f (JSONValidator.validate reqV reqC recV recC data) =
      stepTriple reqC data true f vld (none, none, none) := by
  rcases List.nodup_append.mp hnd with ⟨hreq, _, hdisj⟩
  have hfmem : f ∈ keysOf reqV :=
    (lookupKV_isSome_iff_mem reqV f).mp (by simp [hkv])
  have hfrec : f ∉ keysOf recV := fun h => hdisj hfmem h
  calc tripleAt f (JSONValidator.validate reqV reqC recV recC data)
      = tripleAt f (apply_schema reqV reqC data true emptyOut) :=
        apply_schema_at_notmem recC data false recV _ f hfrec
    _ = stepTriple reqC data true f vld (tripleAt f emptyOut) :=
        apply_schema_at_mem reqC data true reqV emptyOut f vld hreq hkv
    _ = stepTriple reqC data true f vld (none, none, none) := rfl

theorem validate_at_recommended (reqV : VSchema) (reqC : CondMap) (recV : VSchema)
    (recC : CondMap) (data : Record) (f : String) (vld : Validator)
    (hnd : (keysOf reqV ++ keysOf recV).Nodup) (hkv : lookupKV recV f = some vld) :
    tripleAt f (JSONValidator.validate reqV reqC recV recC data) =
      stepTriple recC data false f vld (none, none, none) := by
  rcases List.nodup_append.mp hnd with ⟨_, hrec, hdisj⟩
  have hfmem : f ∈ keysOf recV :=
    (lookupKV_isSome_iff_mem recV f).mp (by simp [hkv])
  have hfreq : f ∉ keysOf reqV := fun h => hdisj h hfmem
  have hbase : tripleAt f (apply_schema reqV reqC data true emptyOut) = (none, none, none) :=
    apply_schema_at_notmem reqC data true reqV emptyOut f hfreq
  calc tripleAt f (JSONValidator.validate reqV reqC recV recC data)
      = stepTriple recC data false f vld
          (tripleAt f (apply_schema reqV reqC data true emptyOut)) :=
        apply_schema_at_mem recC data false recV _ f vld hrec hkv
    _ = stepTriple recC data false f vld (none, none, none) := by rw [hbase]

/-! ## Claim theorems -/

/-- C6: `validate_total_pairs` errors exactly when the input is below -1
or above 100, warns exactly when no error fired and the input is 0 or
above 10, and returns the input unchanged.  Stated for every rational
input, which covers every integer input. -/
theorem C6_validate_total_pairs_spec (v : ℚ) :
    ((validate_total_pairs v).1 ≠ [] ↔ v < -1 ∨ v > 100) ∧
    ((validate_total_pairs v).2.1 ≠ [] ↔
      ((validate_total_pairs v).1 = [] ∧ (v = 0 ∨ v > 10))) ∧
    (validate_total_pairs v).2.2 = v := by
  unfold validate_total_pairs MIN_PAIRS_ERROR_THRESHOLD MAX_PAIRS_ERROR_THRESHOLD
    MAX_PAIRS_WARNING_THRESHOLD
  split_ifs with h1 h2 <;> simp_all

/-- C8: `validate_inversion_time` errors exactly when the input is not
strictly positive, never warns (the warning band in the source is a
commented-out placeholder), and returns the input unchanged. -/
theorem C8_validate_inversion_time_spec (v : ℚ) :
    ((validate_inversion_time v).1 ≠ [] ↔ v ≤ 0) ∧
    (validate_inversion_time v).2.1 = [] ∧
    (validate_inversion_time v).2.2 = v := by
  unfold validate_inversion_time MIN_INVERSION_TIME_ERROR_THRESHOLD
  split_ifs with h <;> simp_all

/-- C9: `validate_recommended_parameters` returns empty error and warning
lists for every record; it only fills the values dict. -/
theorem C9_validate_recommended_parameters_silent (data : Record) :
    (validate_recommended_parameters data).1 = [] ∧
    (validate_recommended_parameters data).2.1 = [] :=
  ⟨rfl, rfl⟩

/-- C10: `should_apply_validation` evaluates every condition that is
neither the literal "all" nor a mapping to true, and likewise the empty
mapping; it never rejects a condition it does not recognize. -/
theorem C10_unrecognized_condition_applies (data : Record) :
    should_apply_validation data Condition.other = true ∧
    should_apply_validation data (Condition.cdict []) = true :=
  ⟨rfl, rfl⟩

/-- C2 counterexample: on the numeric-array field AcquisitionVoxelSize the
input [200, 0, 3] produces an error (element 200, above the hard bound
100) and, in the same pass, a warning (element 0, below the warning floor
1) — so an error does not suppress the field's warning across elements,
refuting the claim for numeric-array fields. -/
theorem C2_counterexample :
    vErrs (validate_voxel_size (.jarr [.jnum 200, .jnum 0, .jnum 3])) ≠ [] ∧
    vWarns (validate_voxel_size (.jarr [.jnum 200, .jnum 0, .jnum 3])) ≠ [] := by
  decide

/-- C2 amended: within a scalar numeric validation a hard-range error
suppresses the warning check (`validate_total_pairs`), and within a
numeric-array validation the suppression holds per element
(`checkVoxelElem`, the element loop body of `validate_voxel_size`); an
array field may still emit an error and a warning from different
elements of the same pass. -/
theorem C2_error_suppresses_warning_per_scalar :
    (∀ q : ℚ, (validate_total_pairs q).1 = [] ∨ (validate_total_pairs q).2.1 = []) ∧
    (∀ q : ℚ, (checkVoxelElem q).1 = [] ∨ (checkVoxelElem q).2 = []) := by
  constructor <;> intro q
  · unfold validate_total_pairs; split_ifs <;> simp
  · unfold checkVoxelElem; split_ifs <;> simp

/-- C7 counterexample: a controlling field absent from the record is not a
distinct "not present" value — `data.get` yields `None` (null), which
matches an expected value of null, so the condition {"X": null} holds on
the empty record even though "X" is absent. -/
theorem C7_counterexample :
    hasKey [] "X" = false ∧
    should_apply_validation [] (Condition.cdict [("X", JVal.jnull)]) = true := by
  decide

/-- C7 amended: a dict condition holds iff every entry passes
(membership for a list of acceptable values, Python equality otherwise);
an absent controlling field is read as `None`/null, which matches an
expected value of null — directly or as a list member — but no other
expected value, including false. -/
theorem C7_absent_field_matches_only_null (data : Record) (k : String) (v : JVal)
    (habs : hasKey data k = false) :
    should_apply_validation data (Condition.cdict [(k, v)]) = true ↔
      (v = JVal.jnull ∨ ∃ xs, v = JVal.jarr xs ∧ pyMem JVal.jnull xs = true) := by
  have hget : pyGet data k = JVal.jnull := by
    unfold hasKey at habs
    unfold pyGet
    rcases h : lookupKV data k with _ | w
    · rfl
    · rw [h] at habs; simp at habs
  have hform : should_apply_validation data (Condition.cdict [(k, v)]) =
      condEntryPass data (k, v) := by
    simp [should_apply_validation]
  rw [hform]
  cases v with
  | jnull =>
    have : condEntryPass data (k, JVal.jnull) = true := by
      show pyEq (pyGet data k) JVal.jnull = true
      rw [hget]; rfl
    simp [this]
  | jbool b =>
    have : condEntryPass data (k, JVal.jbool b) = false := by
      show pyEq (pyGet data k) (JVal.jbool b) = false
      rw [hget]; rfl
    simp [this]
  | jnum q =>
    have : condEntryPass data (k, JVal.jnum q) = false := by
      show pyEq (pyGet data k) (JVal.jnum q) = false
      rw [hget]; rfl
    simp [this]
  | jstr s =>
    have : condEntryPass data (k, JVal.jstr s) = false := by
      show pyEq (pyGet data k) (JVal.jstr s) = false
      rw [hget]; rfl
    simp [this]
  | jarr xs =>
    have : condEntryPass data (k, JVal.jarr xs) = pyMem JVal.jnull xs := by
      show pyMem (pyGet data k) xs = pyMem JVal.jnull xs
      rw [hget]
    simp [this]

/-- C7 witness: instantiating the amended theorem at the empty record and
the expected value `false`: the entry does not pass, since null matches
no non-null expected value. -/
theorem C7_witness :
    should_apply_validation [] (Condition.cdict [("Y", JVal.jbool false)]) = true ↔
      (JVal.jbool false = JVal.jnull ∨
       ∃ xs, JVal.jbool false = JVal.jarr xs ∧ pyMem JVal.jnull xs = true) :=
  C7_absent_field_matches_only_null [] "Y" (JVal.jbool false) (by decide)

/-- C1 counterexample: a recommended-schema field whose condition
evaluates false is skipped by `apply_schema` entirely — `values` has no
entry for it at all, rather than the claimed "Not applicable" sentinel. -/
theorem C1_counterexample :
    (JSONValidator.validate [] [] [("F", fun _ => (none, none))]
        [("F", Condition.cdict [("G", JVal.jbool true)])] []).values "F" = none ∧
    (JSONValidator.validate [] [] [("F", fun _ => (none, none))]
        [("F", Condition.cdict [("G", JVal.jbool true)])] []).values "F" ≠
      some (JVal.jstr "Not applicable") := by
  have h0 : (JSONValidator.validate [] [] [("F", fun _ => (none, none))]
      [("F", Condition.cdict [("G", JVal.jbool true)])] []).values "F" = none := Eq.refl none
  exact ⟨h0, by rw [h0]; simp⟩

/-- C1 amended: in the engine variant, a recommended-schema field whose
condition evaluates false contributes nothing to `values` (the field is
absent from the output, with no sentinel of any kind); a recommended
field whose condition evaluates true but which is absent from the record
gets the "Recommended to be specified" sentinel in `values`. -/
theorem C1_recommended_sentinel (reqV : VSchema) (reqC : CondMap) (recV : VSchema)
    (recC : CondMap) (data : Record) (f : String)
    (hnd : (keysOf reqV ++ keysOf recV).Nodup) (hmem : f ∈ keysOf recV) :
    (should_apply_validation data (condFor recC f) = false →
      (JSONValidator.validate reqV reqC recV recC data).values f = none) ∧
    (should_apply_validation data (condFor recC f) = true → hasKey data f = false →
      (JSONValidator.validate reqV reqC recV recC data).values f =
        some (JVal.jstr "Recommended to be specified")) := by
  obtain ⟨vld, hkv⟩ :=
    Option.isSome_iff_exists.mp ((lookupKV_isSome_iff_mem recV f).mpr hmem)
  have ht := validate_at_recommended reqV reqC recV recC data f vld hnd hkv
  have hv : (JSONValidator.validate reqV reqC recV recC data).values f =
      (stepTriple recC data false f vld (none, none, none)).2.2 :=
    congrArg (fun t => t.2.2) ht
  constructor
  · intro hcond
    rw [hv]
    simp [stepTriple, hcond]
  · intro hcond hkey
    rw [hv]
    simp [stepTriple, hcond, hkey]

/-- C1 witness: with an empty required schema, one recommended field "F"
with the default "all" condition, and the empty record, `values` maps "F"
to the "Recommended to be specified" sentinel. -/
theorem C1_witness :
    (JSONValidator.validate [] [] [("F", fun _ => (none, none))] [] []).values "F" =
      some (JVal.jstr "Recommended to be specified") :=
  (C1_recommended_sentinel [] [] [("F", fun _ => (none, none))] [] [] "F"
    (by decide) (by decide)).2 (by decide) (by decide)

/-- C3 counterexample: in the domain-rule variant, an absent
TotalAcquiredPairs produces no missing-parameter error — the field is
defaulted to -1 (which passes the range check silently) and it does
appear as a key of the values output, with value -1. -/
theorem C3_counterexample :
    (verify_general_parameters [("ArterialSpinLabelingType", JVal.jstr "PASL")]).map
        (fun r => r.2.2 "TotalAcquiredPairs") = some (some (JVal.jnum (-1))) ∧
    validate_total_pairs (-1) = ([], [], -1) := by
  constructor
  · rfl
  · decide

/-- C3 amended: in the engine variant the claim holds exactly — a
required field whose condition evaluates true and which is absent yields
the single errors entry "Missing required parameter" and no values
entry.  In the domain-rule variant it does not: an absent
TotalAcquiredPairs is defaulted to -1, `validate_total_pairs (-1)`
produces no error, and the field appears in values as -1. -/
theorem C3_missing_required_parameter :
    (∀ (reqV : VSchema) (reqC : CondMap) (recV : VSchema) (recC : CondMap)
        (data : Record) (f : String),
      (keysOf reqV ++ keysOf recV).Nodup → f ∈ keysOf reqV →
      should_apply_validation data (condFor reqC f) = true → hasKey data f = false →
      (JSONValidator.validate reqV reqC recV recC data).errors f =
        some "Missing required parameter" ∧
      (JSONValidator.validate reqV reqC recV recC data).values f = none) ∧
    (∀ (data : Record) (r : List String × List String × (String → Option JVal)),
      lookupKV data "TotalAcquiredPairs" = none →
      verify_general_parameters data = some r →
      r.2.2 "TotalAcquiredPairs" = some (JVal.jnum (-1)) ∧
      validate_total_pairs (-1) = ([], [], -1)) := by
  constructor
  · intro reqV reqC recV recC data f hnd hmem hcond hkey
    obtain ⟨vld, hkv⟩ :=
      Option.isSome_iff_exists.mp ((lookupKV_isSome_iff_mem reqV f).mpr hmem)
    have ht := validate_at_required reqV reqC recV recC data f vld hnd hkv
    have he : (JSONValidator.validate reqV reqC recV recC data).errors f =
        (stepTriple reqC data true f vld (none, none, none)).1 :=
      congrArg (fun t => t.1) ht
    have hv : (JSONValidator.validate reqV reqC recV recC data).values f =
        (stepTriple reqC data true f vld (none, none, none)).2.2 :=
      congrArg (fun t => t.2.2) ht
    rw [he, hv]
    constructor <;> simp [stepTriple, hcond, hkey]
  · intro data r hTP hr
    refine ⟨?_, by decide⟩
    have htp : pyGetD data "TotalAcquiredPairs" (.jnum (-1)) = JVal.jnum (-1) := by
      simp [pyGetD, hTP]
    rw [verify_general_parameters] at hr
    rw [htp] at hr
    rcases hv5 : validate_voxel_size (pyGetD data "AcquisitionVoxelSize" (.jarr [])) with
      _ | r5
    · simp [asNum, hv5] at hr
    · simp [asNum, hv5] at hr
      rw [← hr]
      simp [upd]

/-- C3 witness: engine — one required field "F" with the default "all"
condition and the empty record yields the missing-parameter error and no
values entry; domain — the empty record (TotalAcquiredPairs absent)
yields a values entry of -1 for TotalAcquiredPairs. -/
theorem C3_witness :
    ((JSONValidator.validate [("F", fun _ => (none, none))] [] [] [] []).errors "F" =
        some "Missing required parameter" ∧
      (JSONValidator.validate [("F", fun _ => (none, none))] [] [] [] []).values "F" = none) ∧
    (verify_general_parameters []).map (fun r => r.2.2 "TotalAcquiredPairs") =
      some (some (JVal.jnum (-1))) := by
  constructor
  · exact C3_missing_required_parameter.1 [("F", fun _ => (none, none))] [] [] [] [] "F"
      (by decide) (by decide) (by decide) (by decide)
  · obtain ⟨r, hr⟩ : ∃ r, verify_general_parameters [] = some r := ⟨_, rfl⟩
    simp only [hr, Option.map_some']
    exact congrArg some (C3_missing_required_parameter.2 [] r rfl hr).1

/-- C4 counterexample: a required field that is present but fails its
validator appears in BOTH the errors map and the values map, refuting the
"exactly one of errors and values" invariant. -/
theorem C4_counterexample :
    (JSONValidator.validate [("F", fun _ => (some "bad", none))] [] [] []
        [("F", JVal.jnum 1)]).errors "F" = some "bad" ∧
    (JSONValidator.validate [("F", fun _ => (some "bad", none))] [] [] []
        [("F", JVal.jnum 1)]).values "F" = some (JVal.jnum 1) :=
  ⟨rfl, rfl⟩

/-- C4 amended: for every record, a required-schema field whose condition
evaluates true appears in errors (and not in values) when absent, and
always appears in values when present — additionally appearing in errors
when its validator reports an error, so "exactly one of" weakens to this
placement; a recommended-schema field with a true condition always
appears in values (raw value when present, sentinel when absent), and a
condition-false field of the recommended schema contributes no values
entry. -/
theorem C4_field_placement (reqV : VSchema) (reqC : CondMap) (recV : VSchema)
    (recC : CondMap) (data : Record) (f : String)
    (hnd : (keysOf reqV ++ keysOf recV).Nodup) :
    (f ∈ keysOf reqV → should_apply_validation data (condFor reqC f) = true →
      ((hasKey data f = false →
         (JSONValidator.validate reqV reqC recV recC data).errors f =
           some "Missing required parameter" ∧
         (JSONValidator.validate reqV reqC recV recC data).values f = none) ∧
       (hasKey data f = true →
         (JSONValidator.validate reqV reqC recV recC data).values f =
           some (pyGet data f)))) ∧
    (f ∈ keysOf recV →
      ((should_apply_validation data (condFor recC f) = true →
         ((hasKey data f = true →
            (JSONValidator.validate reqV reqC recV recC data).values f =
              some (pyGet data f)) ∧
          (hasKey data f = false →
            (JSONValidator.validate reqV reqC recV recC data).values f =
              some (JVal.jstr "Recommended to be specified")))) ∧
       (should_apply_validation data (condFor recC f) = false →
         (JSONValidator.validate reqV reqC recV recC data).values f = none))) := by
  constructor
  · intro hmem hcond
    obtain ⟨vld, hkv⟩ :=
      Option.isSome_iff_exists.mp ((lookupKV_isSome_iff_mem reqV f).mpr hmem)
    have ht := validate_at_required reqV reqC recV recC data f vld hnd hkv
    have he : (JSONValidator.validate reqV reqC recV recC data).errors f =
        (stepTriple reqC data true f vld (none, none, none)).1 :=
      congrArg (fun t => t.1) ht
    have hv : (JSONValidator.validate reqV reqC recV recC data).values f =
        (stepTriple reqC data true f vld (none, none, none)).2.2 :=
      congrArg (fun t => t.2.2) ht
    refine ⟨fun hkey => ⟨?_, ?_⟩, fun hkey => ?_⟩
    · rw [he]; simp [stepTriple, hcond, hkey]
    · rw [hv]; simp [stepTriple, hcond, hkey]
    · rw [hv]; simp [stepTriple, hcond, hkey]
  · intro hmem
    obtain ⟨vld, hkv⟩ :=
      Option.isSome_iff_exists.mp ((lookupKV_isSome_iff_mem recV f).mpr hmem)
    have ht := validate_at_recommended reqV reqC recV recC data f vld hnd hkv
    have hv : (JSONValidator.validate reqV reqC recV recC data).values f =
        (stepTriple recC data false f vld (none, none, none)).2.2 :=
      congrArg (fun t => t.2.2) ht
    refine ⟨fun hcond => ⟨fun hkey => ?_, fun hkey => ?_⟩, fun hcond => ?_⟩
    · rw [hv]; simp [stepTriple, hcond, hkey]
    · rw [hv]; simp [stepTriple, hcond, hkey]
    · rw [hv]; simp [stepTriple, hcond]

/-- C4 witness: a required field "F" present in the record (with a
validator that errors) still lands in values with its raw value. -/
theorem C4_witness :
    (JSONValidator.validate [("F", fun _ => (some "bad", none))] [] [] []
        [("F", JVal.jnum 1)]).values "F" = some (pyGet [("F", JVal.jnum 1)] "F") :=
  ((C4_field_placement [("F", fun _ => (some "bad", none))] [] [] [] [("F", JVal.jnum 1)] "F"
      (by decide)).1 (by decide) (by decide)).2 (by decide)

/-- C5: `verify_PCASL_required_parameters` demands LabelingDuration and
PostLabelingDelay exactly when the guard (ArterialSpinLabelingType ==
"PCASL" or ArterialSpinType == "(P)CASL") holds: outside the guard it
returns no errors or warnings and maps both fields to "Not applicable";
inside the guard (whenever the call returns, i.e. does not raise), a
null/absent field contributes its missing-parameter error, and a present
numeric field is recorded raw in values with its range-validation errors
included in the output. -/
theorem C5_pcasl_conditional (data : Record) :
    (pcasl_guard data = false →
      verify_PCASL_required_parameters data =
        some ([], [],
          upd (upd (fun _ => none) "LabelingDuration" (JVal.jstr "Not applicable"))
            "PostLabelingDelay" (JVal.jstr "Not applicable"))) ∧
    (pcasl_guard data = true →
      (verify_PCASL_required_parameters data).isSome = true →
      ((pyGet data "LabelingDuration" = JVal.jnull →
        "Required labeling duration parameter for pcasl not provided" ∈
          dErrs (verify_PCASL_required_parameters data)) ∧
       (pyGet data "PostLabelingDelay" = JVal.jnull →
        "Required post labeling delay parameter for pcasl not provided" ∈
          dErrs (verify_PCASL_required_parameters data)) ∧
       (∀ q : ℚ, pyGet data "LabelingDuration" = JVal.jnum q →
        dValueAt (verify_PCASL_required_parameters data) "LabelingDuration" =
          some (JVal.jnum q) ∧
        (validate_labeling_duration q).1 ⊆
          dErrs (verify_PCASL_required_parameters data)) ∧
       (∀ q : ℚ, pyGet data "PostLabelingDelay" = JVal.jnum q →
        dValueAt (verify_PCASL_required_parameters data) "PostLabelingDelay" =
          some (JVal.jnum q) ∧
        (validate_post_labeling_delay q).1 ⊆
          dErrs (verify_PCASL_required_parameters data)))) := by
  constructor
  · intro hg
    simp [verify_PCASL_required_parameters, hg]
  · intro hg hsome
    rcases h1 : pcaslCheckField (pyGet data "LabelingDuration")
        "Required labeling duration parameter for pcasl not provided"
        validate_labeling_duration with _ | s1
    · exfalso
      simp [verify_PCASL_required_parameters, hg, h1] at hsome
    rcases h2 : pcaslCheckField (pyGet data "PostLabelingDelay")
        "Required post labeling delay parameter for pcasl not provided"
        validate_post_labeling_delay with _ | s2
    · exfalso
      simp [verify_PCASL_required_parameters, hg, h1, h2] at hsome
    refine ⟨?_, ?_, ?_, ?_⟩
    · intro hld
      have e1 : pcaslCheckField (pyGet data "LabelingDuration")
          "Required labeling duration parameter for pcasl not provided"
          validate_labeling_duration =
          some (["Required labeling duration parameter for pcasl not provided"], [], none) := by
        rw [hld]; rfl
      simp [dErrs, verify_PCASL_required_parameters, hg, e1, h2]
    · intro hpld
      have e2 : pcaslCheckField (pyGet data "PostLabelingDelay")
          "Required post labeling delay parameter for pcasl not provided"
          validate_post_labeling_delay =
          some (["Required post labeling delay parameter for pcasl not provided"], [], none) := by
        rw [hpld]; rfl
      simp [dErrs, verify_PCASL_required_parameters, hg, h1, e2]
    · intro q hld
      have e1 : pcaslCheckField (pyGet data "LabelingDuration")
          "Required labeling duration parameter for pcasl not provided"
          validate_labeling_duration =
          some ((validate_labeling_duration q).1, (validate_labeling_duration q).2.1,
            some (JVal.jnum q)) := by
        rw [hld]; rfl
      constructor
      · simp [dValueAt, verify_PCASL_required_parameters, hg, e1, h2]
        rcases s2.2.2 with _ | v2 <;> simp [upd]
      · intro m hm
        simp [dErrs, verify_PCASL_required_parameters, hg, e1, h2]
        exact Or.inl hm
    · intro q hpld
      have e2 : pcaslCheckField (pyGet data "PostLabelingDelay")
          "Required post labeling delay parameter for pcasl not provided"
          validate_post_labeling_delay =
          some ((validate_post_labeling_delay q).1, (validate_post_labeling_delay q).2.1,
            some (JVal.jnum q)) := by
        rw [hpld]; rfl
      constructor
      · simp [dValueAt, verify_PCASL_required_parameters, hg, h1, e2, upd]
      · intro m hm
        simp [dErrs, verify_PCASL_required_parameters, hg, h1, e2]
        exact Or.inr hm

/-- C5 witness: a PASL record (guard false) gets both sentinels and no
errors; a PCASL record with LabelingDuration absent (guard true) gets the
missing labeling duration error. -/
theorem C5_witness :
    verify_PCASL_required_parameters [("ArterialSpinLabelingType", JVal.jstr "PASL")] =
      some ([], [],
        upd (upd (fun _ => none) "LabelingDuration" (JVal.jstr "Not applicable"))
          "PostLabelingDelay" (JVal.jstr "Not applicable")) ∧
    "Required labeling duration parameter for pcasl not provided" ∈
      dErrs (verify_PCASL_required_parameters
        [("ArterialSpinLabelingType", JVal.jstr "PCASL")]) := by
  constructor
  · exact (C5_pcasl_conditional [("ArterialSpinLabelingType", JVal.jstr "PASL")]).1 (by decide)
  · exact (((C5_pcasl_conditional [("ArterialSpinLabelingType", JVal.jstr "PCASL")]).2
      (by decide) (by rfl)).1) rfl
